import Mathlib

/-!
# convert.c : PCM <-> G.711 converter with a 44-byte wave header

A shallow embedding of `module2/convert.c`.

* Bytes, `uint16_t` and `uint32_t` values are natural numbers; every place where C
  arithmetic wraps carries an explicit `% 2 ^ w`.  `int16_t` samples are integers.
* The host is little-endian (as the program itself assumes when it `fwrite`s whole
  integers into the header).
* An input stream is the list of bytes not yet consumed; an output stream is the file
  content together with the file position.
* `stdout` (the `printf` progress lines and `print_header`) is not part of the model.
* The four codec functions are only declared in `g711.h`; the driver is embedded over an
  arbitrary implementation of that interface (`g711`).  A model of the codec bodies, following
  the specification, is given separately (`Snack_Lin2Mulaw` and friends).
-/

namespace Convert

/-! ## Constants of `convert.c` -/

def WAVE_FORMAT_PCM : Nat := 0x01
def WAVE_FORMAT_ALAW : Nat := 0x06
def WAVE_FORMAT_ULAW : Nat := 0x07

def BPS_8 : Nat := 0x08
def BPS_16 : Nat := 0x10

/-! ## Little-endian object representations -/

/-- The two bytes of a `uint16_t` in memory, low byte first. -/
def le16 (n : Nat) : List Nat := [n % 256, n / 256 % 256]

/-- The four bytes of a `uint32_t` in memory, low byte first. -/
def le32 (n : Nat) : List Nat :=
  [n % 256, n / 256 % 256, n / 65536 % 256, n / 16777216 % 256]

/-- The unsigned value of an object whose bytes are `bs`, low byte first. -/
def le_val : List Nat → Nat
  | [] => 0
  | b :: bs => b + 256 * le_val bs

/-- The two bytes of an `int16_t` in memory (two's complement, low byte first). -/
def int16_bytes (v : Int) : List Nat := le16 (v % 65536).toNat

/-- The `int16_t` whose two bytes in memory are `b0`, `b1`. -/
def int16_val (b0 b1 : Nat) : Int :=
  let u := le_val [b0, b1]
  if u < 32768 then (u : Int) else (u : Int) - 65536

/-! ## Streams -/

/-- An output stream: the content of the file and the file position. -/
structure FILE where
  data : List Nat
  pos : Nat
deriving DecidableEq, Repr

/-- The stream `fopen(name, "w")` returns: an empty file, position 0. -/
def fopen_w : FILE := { data := [], pos := 0 }

/-- The call `fseek(f, off, SEEK_SET)`: only the position moves. -/
def fseek_set (f : FILE) (off : Nat) : FILE := { f with pos := off }

/-- The call `fwrite(bs, 1, bs.length, f)`: the bytes overwrite the file from the position
on; when the position is past the end the gap reads as zero bytes.  Writing nothing changes
nothing. -/
def fwrite (f : FILE) (bs : List Nat) : FILE :=
  if bs = [] then f
  else
    let padded := f.data ++ List.replicate (f.pos - f.data.length) 0
    { data := padded.take f.pos ++ bs ++ padded.drop (f.pos + bs.length)
      pos := f.pos + bs.length }

/-- The call `fread(buf, 1, n, input)` on an input stream given by its unread bytes: the bytes
obtained (fewer than `n` at the end of the file) and the rest of the stream. -/
def fread (n : Nat) (input : List Nat) : List Nat × List Nat :=
  (input.take n, input.drop n)

/-- The bytes of an object after `fread` stored `got` at its start: a short read leaves the
tail of the old object representation `cur` in place. -/
def overlay (cur got : List Nat) : List Nat := got ++ cur.drop got.length

/-! ## The wave header -/

/-- The struct `wave_file_header_t` of `convert.c`. The four tags are `uint8_t[5]` arrays. -/
structure wave_file_header_t where
  type : List Nat
  file_size : Nat
  wave_marker : List Nat
  fmt : List Nat
  fmt_length : Nat
  fmt_type : Nat
  num_channels : Nat
  sample_rate : Nat
  sample_calc1 : Nat
  bit_mode : Nat
  bits_per_sample : Nat
  data_marker : List Nat
  data_size : Nat
deriving DecidableEq, Repr

/-- The initialiser `wave_file_header_t h = {}`: every byte is zero. -/
def wave_file_header_zero : wave_file_header_t :=
  { type := [0, 0, 0, 0, 0], file_size := 0, wave_marker := [0, 0, 0, 0, 0],
    fmt := [0, 0, 0, 0, 0], fmt_length := 0, fmt_type := 0, num_channels := 0,
    sample_rate := 0, sample_calc1 := 0, bit_mode := 0, bits_per_sample := 0,
    data_marker := [0, 0, 0, 0, 0], data_size := 0 }

/-- A value that inhabits the C type: arrays of five bytes, integers within their width. -/
def wave_file_header_t.wf (h : wave_file_header_t) : Prop :=
  (h.type.length = 5 ∧ h.wave_marker.length = 5 ∧ h.fmt.length = 5 ∧ h.data_marker.length = 5) ∧
  (h.file_size < 2 ^ 32 ∧ h.fmt_length < 2 ^ 32 ∧ h.fmt_type < 2 ^ 16 ∧
    h.num_channels < 2 ^ 16 ∧ h.sample_rate < 2 ^ 32 ∧ h.sample_calc1 < 2 ^ 32 ∧
    h.bit_mode < 2 ^ 16 ∧ h.bits_per_sample < 2 ^ 16 ∧ h.data_size < 2 ^ 32)

instance (h : wave_file_header_t) : Decidable h.wf := by
  unfold wave_file_header_t.wf; infer_instance

/-- The function `write_header_to_file`: thirteen `fwrite` calls, in the order of the source.
The assignment to `header.data_marker[4]` acts on the by-value copy and has no effect. -/
def write_header_to_file (header : wave_file_header_t) (output : FILE) : FILE :=
  let output := fwrite output (header.type.take 4)
  let output := fwrite output (le32 header.file_size)
  let output := fwrite output (header.wave_marker.take 4)
  let output := fwrite output (header.fmt.take 4)
  let output := fwrite output (le32 header.fmt_length)
  let output := fwrite output (le16 header.fmt_type)
  let output := fwrite output (le16 header.num_channels)
  let output := fwrite output (le32 header.sample_rate)
  let output := fwrite output (le32 header.sample_calc1)
  let output := fwrite output (le16 header.bit_mode)
  let output := fwrite output (le16 header.bits_per_sample)
  let output := fwrite output (header.data_marker.take 4)
  let output := fwrite output (le32 header.data_size)
  output

/-- The function `init_wave_struct`: thirteen `fread` calls, in the order of the source, with the
three explicit terminators (`fmt[4]` is not assigned).  Each member is read once, over its
old content.  Returns the header and the rest of the input stream. -/
def init_wave_struct (header : wave_file_header_t) (input_file : List Nat) :
    wave_file_header_t × List Nat :=
  let r := fread 4 input_file
  let h_type := (overlay header.type r.1).set 4 0
  let r := fread 4 r.2
  let h_file_size := le_val (overlay (le32 header.file_size) r.1)
  let r := fread 4 r.2
  let h_wave_marker := (overlay header.wave_marker r.1).set 4 0
  let r := fread 4 r.2
  let h_fmt := overlay header.fmt r.1
  let r := fread 4 r.2
  let h_fmt_length := le_val (overlay (le32 header.fmt_length) r.1)
  let r := fread 2 r.2
  let h_fmt_type := le_val (overlay (le16 header.fmt_type) r.1)
  let r := fread 2 r.2
  let h_num_channels := le_val (overlay (le16 header.num_channels) r.1)
  let r := fread 4 r.2
  let h_sample_rate := le_val (overlay (le32 header.sample_rate) r.1)
  let r := fread 4 r.2
  let h_sample_calc1 := le_val (overlay (le32 header.sample_calc1) r.1)
  let r := fread 2 r.2
  let h_bit_mode := le_val (overlay (le16 header.bit_mode) r.1)
  let r := fread 2 r.2
  let h_bits_per_sample := le_val (overlay (le16 header.bits_per_sample) r.1)
  let r := fread 4 r.2
  let h_data_marker := (overlay header.data_marker r.1).set 4 0
  let r := fread 4 r.2
  let h_data_size := le_val (overlay (le32 header.data_size) r.1)
  ({ type := h_type, file_size := h_file_size, wave_marker := h_wave_marker, fmt := h_fmt,
     fmt_length := h_fmt_length, fmt_type := h_fmt_type, num_channels := h_num_channels,
     sample_rate := h_sample_rate, sample_calc1 := h_sample_calc1, bit_mode := h_bit_mode,
     bits_per_sample := h_bits_per_sample, data_marker := h_data_marker,
     data_size := h_data_size }, r.2)

/-- The five bytes `memcpy` takes from a string literal such as `"RIFF\0"`. -/
def tag_bytes (s : String) : List Nat := (s.data.map Char.toNat).take 5

/-- The function `generate_wav_header`.  The arguments are converted to the parameter types
(`uint32_t`, `uint32_t`, `uint16_t`, `uint16_t`); `header_byte_count` is a `uint8_t`; the
products and the sum are computed in `unsigned int`.  Each of the thirteen members is
assigned, so nothing of the incoming `*header` survives. -/
def generate_wav_header (_header : wave_file_header_t)
    (sample_rate byte_count fmt_type bps : Nat) : wave_file_header_t :=
  let sample_rate := sample_rate % 2 ^ 32
  let byte_count := byte_count % 2 ^ 32
  let fmt_type := fmt_type % 2 ^ 16
  let bps := bps % 2 ^ 16
  let header_byte_count : Nat := 0
  let h_type := tag_bytes "RIFF\x00"
  let header_byte_count := (header_byte_count + 4) % 256
  let _h_file_size : Nat := 0
  let header_byte_count := (header_byte_count + 4) % 256
  let h_wave_marker := tag_bytes "WAVE\x00"
  let header_byte_count := (header_byte_count + 4) % 256
  let h_fmt := tag_bytes "fmt \x00"
  let header_byte_count := (header_byte_count + 4) % 256
  let h_fmt_length := header_byte_count
  let header_byte_count := (header_byte_count + 4) % 256
  let h_fmt_type := fmt_type
  let header_byte_count := (header_byte_count + 2) % 256
  let h_num_channels : Nat := 1
  let header_byte_count := (header_byte_count + 2) % 256
  let h_sample_rate := sample_rate
  let header_byte_count := (header_byte_count + 4) % 256
  let h_bits_per_sample := bps
  let header_byte_count := (header_byte_count + 2) % 256
  let h_sample_calc1 := (h_sample_rate * h_bits_per_sample % 2 ^ 32 * h_num_channels) % 2 ^ 32 / 4
  let header_byte_count := (header_byte_count + 4) % 256
  let h_bit_mode := (h_num_channels * h_bits_per_sample / 8) % 2 ^ 16
  let header_byte_count := (header_byte_count + 2) % 256
  let h_data_marker := tag_bytes "data\x00"
  let header_byte_count := (header_byte_count + 4) % 256
  let h_data_size := byte_count
  let header_byte_count := (header_byte_count + 4) % 256
  -- finally update filesize
  let h_file_size := ((header_byte_count + h_data_size) % 2 ^ 32 + (2 ^ 32 - 8)) % 2 ^ 32
  { type := h_type, file_size := h_file_size, wave_marker := h_wave_marker, fmt := h_fmt,
    fmt_length := h_fmt_length, fmt_type := h_fmt_type, num_channels := h_num_channels,
    sample_rate := h_sample_rate, sample_calc1 := h_sample_calc1, bit_mode := h_bit_mode,
    bits_per_sample := h_bits_per_sample, data_marker := h_data_marker,
    data_size := h_data_size }

/-! ## The codec interface of `g711.h` -/

/-- The four functions of `g711.h` that `convert.c` calls, with their C result types:
`unsigned char` results are below 256 and `short` results are 16-bit. -/
structure g711 where
  Snack_Lin2Alaw : Int → Nat
  Snack_Alaw2Lin : Nat → Int
  Snack_Lin2Mulaw : Int → Nat
  Snack_Mulaw2Lin : Nat → Int
  Lin2Alaw_uchar : ∀ x, Snack_Lin2Alaw x < 256
  Alaw2Lin_short : ∀ y, -32768 ≤ Snack_Alaw2Lin y ∧ Snack_Alaw2Lin y < 32768
  Lin2Mulaw_uchar : ∀ x, Snack_Lin2Mulaw x < 256
  Mulaw2Lin_short : ∀ y, -32768 ≤ Snack_Mulaw2Lin y ∧ Snack_Mulaw2Lin y < 32768

/-! ## The driver -/

/-- The library function `strrchr(s, c)`: the tail of `s` that starts at the last `c`. -/
def strrchr : List Char → Char → Option (List Char)
  | [], _ => none
  | x :: xs, c =>
    match strrchr xs c with
    | some r => some r
    | none => if x = c then some (x :: xs) else none

/-- The extension test of `main`: `strrchr(name, '.')` is `".wav"` or `".WAV"`. -/
def is_wav_name (name : String) : Bool :=
  match strrchr name.data '.' with
  | some ext => decide (ext = ".wav".data) || decide (ext = ".WAV".data)
  | none => false

/-- The C locale `isspace`. -/
def isspace (c : Char) : Bool :=
  c = ' ' || c = '\t' || c = '\n' || c = '\x0b' || c = '\x0c' || c = '\r'

/-- The value of the longest prefix of decimal digits, continuing from `acc`. -/
def atoi_digits : List Char → Nat → Nat
  | [], acc => acc
  | c :: cs, acc => if c.isDigit then atoi_digits cs (10 * acc + (c.toNat - 48)) else acc

/-- The conversion of a `long` to `int` on an LP64 host: the low 32 bits, two's complement. -/
def long_to_int (v : Int) : Int := (v + 2147483648) % 4294967296 - 2147483648

/-- The library function `strtol(s, NULL, 10)` on an LP64 host: white space, an optional sign,
decimal digits; a value outside `long` saturates to `LONG_MIN` or `LONG_MAX`. -/
def strtol (s : String) : Int :=
  let v : Int :=
    match s.data.dropWhile isspace with
    | '-' :: cs => -(atoi_digits cs 0 : Int)
    | '+' :: cs => (atoi_digits cs 0 : Int)
    | cs => (atoi_digits cs 0 : Int)
  if v > 9223372036854775807 then 9223372036854775807
  else if v < -9223372036854775808 then -9223372036854775808
  else v

/-- The library function `atoi`, which is `(int) strtol(s, NULL, 10)`: the result is always an
`int`.  (C leaves it undefined when the digits do not fit; the model follows the C library
the program is linked with, where `atoi("4294967297")` is 1.) -/
def atoi (s : String) : Int := long_to_int (strtol s)

/-- The loop of `case 1` (`lin2 = Snack_Lin2Mulaw`) and `case 3` (`lin2 = Snack_Lin2Alaw`):
while a whole `int16_t` can be read, write its code byte and count it.  A single trailing
byte is consumed by the failing `fread` and ends the loop.  `byte_count` is a `uint32_t`. -/
def encode_loop (lin2 : Int → Nat) : List Nat → FILE → Nat → FILE × Nat
  | b0 :: b1 :: rest, output_file, byte_count =>
    let val16 := int16_val b0 b1
    let val8 := lin2 val16 % 256
    encode_loop lin2 rest (fwrite output_file [val8]) ((byte_count + 1) % 2 ^ 32)
  | _, output_file, byte_count => (output_file, byte_count)

/-- The loop of `case 2` (`toLin = Snack_Mulaw2Lin`) and `case 4` (`toLin = Snack_Alaw2Lin`):
while a byte can be read, write its sample as an `int16_t` and count two bytes. -/
def decode_loop (toLin : Nat → Int) : List Nat → FILE → Nat → FILE × Nat
  | val8 :: rest, output_file, byte_count =>
    let val16 := toLin val8
    decode_loop toLin rest (fwrite output_file (int16_bytes val16)) ((byte_count + 2) % 2 ^ 32)
  | [], output_file, byte_count => (output_file, byte_count)

/-- What `main` leaves behind: its return value and the content of the output file (`none`
when the file was never opened). -/
structure main_result where
  status : Int
  output : Option (List Nat)
deriving DecidableEq, Repr

/-- The function `main`, on the runs in which both `fopen` calls succeed (the program does
not test their results; with a null stream it does not return at all).  `argv` is the
argument vector (`args` is its length, the program name included), `input` the bytes
readable from `input_file` once both files are open. -/
def main (codec : g711) (argv : List String) (input : List Nat) : main_result :=
  match argv with
  | [_, argv1, argv2, argv3] =>
    let byte_count : Nat := 0
    let wav_header := wave_file_header_zero
    let wav_header_new := wave_file_header_zero
    let input_file := input
    let output_file := fopen_w
    let is_input_wav := is_wav_name argv1
    let is_output_wav := is_wav_name argv2
    let input_file := if is_input_wav then (init_wave_struct wav_header input_file).2
      else input_file
    -- data starts at byte 44
    let output_file := if is_output_wav then fseek_set output_file 44 else output_file
    let output_file :=
      if atoi argv3 = 1 then
        let r := encode_loop codec.Snack_Lin2Mulaw input_file output_file byte_count
        -- write header at index 0
        let output_file := fseek_set r.1 0
        if is_output_wav then
          write_header_to_file
            (generate_wav_header wav_header_new 16000 r.2 WAVE_FORMAT_ULAW BPS_8) output_file
        else output_file
      else if atoi argv3 = 2 then
        let r := decode_loop codec.Snack_Mulaw2Lin input_file output_file byte_count
        if is_output_wav then
          write_header_to_file
            (generate_wav_header wav_header_new 8000 r.2 WAVE_FORMAT_PCM BPS_16)
            (fseek_set r.1 0)
        else r.1
      else if atoi argv3 = 3 then
        let r := encode_loop codec.Snack_Lin2Alaw input_file output_file byte_count
        if is_output_wav then
          write_header_to_file
            (generate_wav_header wav_header_new 22050 r.2 WAVE_FORMAT_ALAW BPS_8)
            (fseek_set r.1 0)
        else r.1
      else if atoi argv3 = 4 then
        let r := decode_loop codec.Snack_Alaw2Lin input_file output_file byte_count
        if is_output_wav then
          write_header_to_file
            (generate_wav_header wav_header_new 22050 r.2 WAVE_FORMAT_PCM BPS_16)
            (fseek_set r.1 0)
        else r.1
      else
        -- case 5 only prints the parsed header; any other value matches no case
        output_file
    { status := 0, output := some output_file.data }
  | _ => { status := -1, output := none }

/-! ## The codec bodies (`g711.c`)

`convert.c` calls the four `Snack_*` functions and attributes them to the Snack `g711.c`; only
their declarations (`g711.h`) are among the sources.  The definitions below follow sections
4.1 to 4.4 of the specification, with the constants it names (clip 8159, bias `0x84`, mask
`0x55`, segment ends 31, 63, ... for A-law) at the scale at which the clip 8159 applies: the
14-bit magnitude for mu-law and the 13-bit magnitude for A-law. -/

def SIGN_BIT : Nat := 0x80
def QUANT_MASK : Nat := 0xf
def SEG_SHIFT : Nat := 4
def SEG_MASK : Nat := 0x70
def BIAS : Nat := 0x84
def CLIP : Int := 8159

/-- Modelled from the spec: the A-law segment table of `g711.c` (absent from the sources);
section 4.3, eight segment ends 31, 63, 127, ... -/
def seg_aend : List Int := [0x1F, 0x3F, 0x7F, 0xFF, 0x1FF, 0x3FF, 0x7FF, 0xFFF]

/-- Modelled from the spec: the mu-law segment table of `g711.c` (absent from the sources);
section 4.1 step 3, eight segments above the bias. -/
def seg_uend : List Int := [0x3F, 0x7F, 0xFF, 0x1FF, 0x3FF, 0x7FF, 0xFFF, 0x1FFF]

/-- Modelled from the spec: the segment search of `g711.c` (absent from the sources); the
index of the first segment end that is at least `val`, or the table size. -/
def search (val : Int) : List Int → Nat
  | [] => 0
  | e :: table => if val ≤ e then 0 else search val table + 1

/-- Modelled from the spec: the body of `Snack_Lin2Mulaw` is in `g711.c`, absent from the
sources.  Section 4.1: sign and magnitude (of the 14-bit sample), clip at 8159, add the bias,
search the segment, take the 4-bit mantissa, assemble and complement the byte. -/
def Snack_Lin2Mulaw (pcm_val : Int) : Nat :=
  let pcm_val := pcm_val >>> 2
  let mask : Nat := if pcm_val < 0 then 0x7F else 0xFF
  let pcm_val := if pcm_val < 0 then -pcm_val else pcm_val
  let pcm_val := if pcm_val > CLIP then CLIP else pcm_val
  let pcm_val := pcm_val + ((BIAS >>> 2 : Nat) : Int)
  let seg := search pcm_val seg_uend
  if seg ≥ 8 then (0x7F ^^^ mask) % 256
  else
    let uval := ((seg <<< 4) ||| ((pcm_val.toNat >>> (seg + 1)) &&& 0xF)) % 256
    (uval ^^^ mask) % 256

/-- Modelled from the spec: the body of `Snack_Mulaw2Lin` is in `g711.c`, absent from the
sources.  Section 4.2: complement the byte, extract sign, segment and mantissa, rebuild
`((mantissa << 3) + bias) << segment`, take off the bias, apply the sign. -/
def Snack_Mulaw2Lin (u_val : Nat) : Int :=
  let u_val := (255 - u_val % 256) % 256
  let t := ((u_val &&& QUANT_MASK) <<< 3) + BIAS
  let t := t <<< ((u_val &&& SEG_MASK) >>> SEG_SHIFT)
  if u_val &&& SIGN_BIT ≠ 0 then (BIAS : Int) - (t : Int) else (t : Int) - (BIAS : Int)

/-- Modelled from the spec: the body of `Snack_Lin2Alaw` is in `g711.c`, absent from the
sources.  Section 4.3: the mu-law structure with the A-law segment ends, no bias, the first
two segments sharing the smaller mantissa shift, and the final XOR with `0x55` (folded, with
the sign bit, into the mask). -/
def Snack_Lin2Alaw (pcm_val : Int) : Nat :=
  let pcm_val := pcm_val >>> 3
  let mask : Nat := if pcm_val ≥ 0 then 0xD5 else 0x55
  let pcm_val := if pcm_val ≥ 0 then pcm_val else -pcm_val - 1
  let seg := search pcm_val seg_aend
  if seg ≥ 8 then (0x7F ^^^ mask) % 256
  else
    let aval := (seg <<< SEG_SHIFT) % 256
    let aval :=
      if seg < 2 then aval ||| ((pcm_val.toNat >>> 1) &&& QUANT_MASK)
      else aval ||| ((pcm_val.toNat >>> seg) &&& QUANT_MASK)
    (aval ^^^ mask) % 256

/-- Modelled from the spec: the body of `Snack_Alaw2Lin` is in `g711.c`, absent from the
sources.  Section 4.4: XOR with `0x55`, extract sign, segment and mantissa, rebuild the
magnitude (segments 0 and 1 at the small scale, the others shifted), apply the sign. -/
def Snack_Alaw2Lin (a_val : Nat) : Int :=
  let a_val := (a_val % 256) ^^^ 0x55
  let t := (a_val &&& QUANT_MASK) <<< 4
  let seg := (a_val &&& SEG_MASK) >>> SEG_SHIFT
  let t :=
    match seg with
    | 0 => t + 8
    | 1 => t + 0x108
    | _ => (t + 0x108) <<< (seg - 1)
  if a_val &&& SIGN_BIT ≠ 0 then (t : Int) else -(t : Int)

/-! ## Vocabulary for the statements -/

/-- The 44 bytes of the documented header layout for the members of `h`, in file order. -/
def header_bytes (h : wave_file_header_t) : List Nat :=
  h.type.take 4 ++ le32 h.file_size ++ h.wave_marker.take 4 ++ h.fmt.take 4 ++
    le32 h.fmt_length ++ le16 h.fmt_type ++ le16 h.num_channels ++ le32 h.sample_rate ++
    le32 h.sample_calc1 ++ le16 h.bit_mode ++ le16 h.bits_per_sample ++
    h.data_marker.take 4 ++ le32 h.data_size

/-- The 16-bit little-endian field at byte offset `off` of a file. -/
def field16 (file : List Nat) (off : Nat) : Nat := le_val ((file.drop off).take 2)

/-- The 32-bit little-endian field at byte offset `off` of a file. -/
def field32 (file : List Nat) (off : Nat) : Nat := le_val ((file.drop off).take 4)

/-- The four bytes of a tag such as `"RIFF"`. -/
def tag4 (s : String) : List Nat := (s.data.map Char.toNat).take 4

/-- A headerless PCM file: the samples as consecutive `int16_t` objects. -/
def pcm16_bytes : List Int → List Nat
  | [] => []
  | x :: xs => int16_bytes x ++ pcm16_bytes xs

/-- The whole 16-bit samples of a byte stream (a trailing single byte is not a sample). -/
def pcm16_samples : List Nat → List Int
  | b0 :: b1 :: rest => int16_val b0 b1 :: pcm16_samples rest
  | _ => []

/-- The code bytes of the whole 16-bit samples of a byte stream. -/
def encode_bytes (lin2 : Int → Nat) (input : List Nat) : List Nat :=
  (pcm16_samples input).map fun x => lin2 x % 256

/-- The decoded samples of a byte stream, as a PCM file. -/
def decode_bytes (toLin : Nat → Int) (input : List Nat) : List Nat :=
  pcm16_bytes (input.map toLin)

/-- An output file: the data, after the 44 header bytes of `hdr` when `wav` holds. -/
def wav_wrap (wav : Bool) (hdr : wave_file_header_t) (data : List Nat) : List Nat :=
  if wav then header_bytes hdr ++ data else data

/-- The name ends in `.wav` or in `.WAV`. -/
def ends_in_wav (name : String) : Prop :=
  ".wav".data <:+ name.data ∨ ".WAV".data <:+ name.data

instance (name : String) : Decidable (ends_in_wav name) := by
  unfold ends_in_wav; infer_instance

/-- The content of the output file after `main` (empty when it was never opened). -/
def main_output (codec : g711) (argv : List String) (input : List Nat) : List Nat :=
  (main codec argv input).output.getD []

/-- A header that no `generate_wav_header` call produces: stereo, 44100 Hz, 16 bits. -/
def sample_header : wave_file_header_t :=
  { type := [82, 73, 70, 70, 0], file_size := 176436, wave_marker := [87, 65, 86, 69, 0],
    fmt := [102, 109, 116, 32, 0], fmt_length := 16, fmt_type := 1, num_channels := 2,
    sample_rate := 44100, sample_calc1 := 176400, bit_mode := 4, bits_per_sample := 16,
    data_marker := [100, 97, 116, 97, 0], data_size := 176400 }

/-- The bytes an input stream has after a 44-byte header when `wav` holds, all of them
otherwise. -/
def payload (wav : Bool) (input : List Nat) : List Nat :=
  if wav then input.drop 44 else input

set_option maxRecDepth 100000 in
/-- The spec-modelled codec bodies as an implementation of the `g711.h` interface. -/
def snack_g711 : g711 where
  Snack_Lin2Alaw := Snack_Lin2Alaw
  Snack_Alaw2Lin := Snack_Alaw2Lin
  Snack_Lin2Mulaw := Snack_Lin2Mulaw
  Snack_Mulaw2Lin := Snack_Mulaw2Lin
  Lin2Alaw_uchar := by
    intro x; unfold Convert.Snack_Lin2Alaw; dsimp only
    split_ifs <;> exact Nat.mod_lt _ (Nat.succ_pos 255)
  Alaw2Lin_short := by
    intro y
    have h : ∀ z : Fin 256, -32768 ≤ Convert.Snack_Alaw2Lin z.val ∧
        Convert.Snack_Alaw2Lin z.val < 32768 := by decide
    have e : Convert.Snack_Alaw2Lin y = Convert.Snack_Alaw2Lin (y % 256) := by
      simp only [Convert.Snack_Alaw2Lin, Nat.mod_mod]
    rw [e]; exact h ⟨y % 256, Nat.mod_lt _ (by decide)⟩
  Lin2Mulaw_uchar := by
    intro x; unfold Convert.Snack_Lin2Mulaw; dsimp only
    split_ifs <;> exact Nat.mod_lt _ (Nat.succ_pos 255)
  Mulaw2Lin_short := by
    intro y
    have h : ∀ z : Fin 256, -32768 ≤ Convert.Snack_Mulaw2Lin z.val ∧
        Convert.Snack_Mulaw2Lin z.val < 32768 := by decide
    have e : Convert.Snack_Mulaw2Lin y = Convert.Snack_Mulaw2Lin (y % 256) := by
      simp only [Convert.Snack_Mulaw2Lin, Nat.mod_mod]
    rw [e]; exact h ⟨y % 256, Nat.mod_lt _ (by decide)⟩

/-! ## Lemmas: object representations -/

theorem le_val_le16 (n : Nat) : le_val (le16 n) = n % 2 ^ 16 := by
  simp only [le16, le_val]; omega

theorem le_val_le32 (n : Nat) : le_val (le32 n) = n % 2 ^ 32 := by
  simp only [le32, le_val]; omega

theorem le16_length (n : Nat) : (le16 n).length = 2 := rfl

theorem le32_length (n : Nat) : (le32 n).length = 4 := rfl

theorem int16_bytes_length (v : Int) : (int16_bytes v).length = 2 := rfl

theorem int16_val_bytes (v : Int) (h : -32768 ≤ v ∧ v < 32768) :
    int16_val ((v % 65536).toNat % 256) ((v % 65536).toNat / 256 % 256) = v := by
  simp only [int16_val, le_val]
  have h1 : 0 ≤ v % 65536 := Int.emod_nonneg _ (by decide)
  have h2 : v % 65536 < 65536 := Int.emod_lt_of_pos _ (by decide)
  have h3 : ((v % 65536).toNat : Int) = v % 65536 := Int.toNat_of_nonneg h1
  split <;> omega

/-! ## Lemmas: streams -/

theorem fwrite_nil (f : FILE) : fwrite f [] = f := by simp [fwrite]

theorem fwrite_fwrite (f : FILE) (a b : List Nat) :
    fwrite (fwrite f a) b = fwrite f (a ++ b) := by
  by_cases ha : a = []
  · subst ha; simp [fwrite_nil]
  by_cases hb : b = []
  · subst hb; simp [fwrite_nil]
  have hab : a ++ b ≠ [] := by simp [ha]
  simp only [fwrite, ha, hb, hab, if_false]
  generalize hP : f.data ++ List.replicate (f.pos - f.data.length) 0 = P
  have hlen : f.pos ≤ P.length := by
    rw [← hP]; simp only [List.length_append, List.length_replicate]; omega
  have h1 : (List.take f.pos P ++ a ++ List.drop (f.pos + a.length) P).length
      = f.pos + a.length + (P.length - (f.pos + a.length)) := by
    simp only [List.length_append, List.length_take, List.length_drop]; omega
  have h2 : (f.pos + a.length) -
      (List.take f.pos P ++ a ++ List.drop (f.pos + a.length) P).length = 0 := by
    rw [h1]; omega
  have h3 : (List.take f.pos P ++ a).length = f.pos + a.length := by
    simp only [List.length_append, List.length_take]; omega
  have hT : List.take (f.pos + a.length)
      (List.take f.pos P ++ a ++ List.drop (f.pos + a.length) P) = List.take f.pos P ++ a :=
    List.take_left' h3
  have hD : List.drop (f.pos + a.length + b.length)
      (List.take f.pos P ++ a ++ List.drop (f.pos + a.length) P)
      = List.drop (f.pos + (a.length + b.length)) P := by
    rw [← h3, List.drop_append, List.drop_drop, h3]
    congr 1; omega
  rw [h2]
  simp only [List.replicate_zero, List.append_nil, List.length_append]
  rw [hT, hD]
  simp only [List.append_assoc, Nat.add_assoc]

theorem fwrite_fopen_w_data (bs : List Nat) : (fwrite fopen_w bs).data = bs := by
  by_cases h : bs = []
  · subst h; rfl
  · simp [fwrite, h, fopen_w]

/-- Back-filling: data written from offset 44 of a fresh file, then 44 bytes written at
offset 0, give the 44 bytes followed by the data. -/
theorem backfill_data (hdr body : List Nat) (h : hdr.length = 44) :
    (fwrite (fseek_set (fwrite (fseek_set fopen_w 44) body) 0) hdr).data = hdr ++ body := by
  have hne : hdr ≠ [] := by intro e; rw [e] at h; simp at h
  by_cases hb : body = []
  · subst hb; simp [fwrite, hne, fopen_w, fseek_set]
  · simp [fwrite, hne, hb, fopen_w, fseek_set, h, List.drop_append]

/-! ## Lemmas: the header functions -/

theorem write_header_to_file_eq (h : wave_file_header_t) (f : FILE) :
    write_header_to_file h f = fwrite f (header_bytes h) := by
  simp only [write_header_to_file, header_bytes, fwrite_fwrite, List.append_assoc]

theorem header_bytes_length (h : wave_file_header_t) (hw : h.wf) :
    (header_bytes h).length = 44 := by
  obtain ⟨⟨h1, h2, h3, h4⟩, _⟩ := hw
  simp only [header_bytes, List.length_append, List.length_take, le32_length, le16_length,
    h1, h2, h3, h4]
  rfl

theorem generate_wav_header_wf (h0 : wave_file_header_t) (sr bc ft bps : Nat) :
    (generate_wav_header h0 sr bc ft bps).wf := by
  simp only [wave_file_header_t.wf, generate_wav_header, tag_bytes]
  refine ⟨⟨rfl, rfl, rfl, rfl⟩, ?_⟩
  omega

theorem init_wave_struct_rest (h : wave_file_header_t) (input : List Nat) :
    (init_wave_struct h input).2 = input.drop 44 := by
  simp only [init_wave_struct, fread, List.drop_drop]

/-! ## Lemmas: the conversion loops -/

theorem pcm16_samples_length : ∀ input : List Nat,
    (pcm16_samples input).length = input.length / 2
  | [] => rfl
  | [_] => by simp [pcm16_samples]
  | _ :: _ :: rest => by
    simp only [pcm16_samples, List.length_cons, pcm16_samples_length rest]; omega

theorem pcm16_bytes_length : ∀ xs : List Int, (pcm16_bytes xs).length = 2 * xs.length
  | [] => rfl
  | _ :: xs => by
    simp only [pcm16_bytes, List.length_append, int16_bytes_length, pcm16_bytes_length xs,
      List.length_cons]; omega

theorem pcm16_samples_bytes : ∀ xs : List Int, (∀ x ∈ xs, -32768 ≤ x ∧ x < 32768) →
    pcm16_samples (pcm16_bytes xs) = xs
  | [], _ => rfl
  | x :: xs, h => by
    have hx := h x (List.mem_cons_self _ _)
    have ih := pcm16_samples_bytes xs (fun y hy => h y (List.mem_cons_of_mem _ hy))
    show pcm16_samples ((x % 65536).toNat % 256 :: (x % 65536).toNat / 256 % 256 ::
      pcm16_bytes xs) = x :: xs
    simp only [pcm16_samples, ih, int16_val_bytes x hx]

theorem encode_loop_eq (lin2 : Int → Nat) : ∀ (input : List Nat) (f : FILE) (c : Nat),
    c < 2 ^ 32 →
    encode_loop lin2 input f c =
      (fwrite f (encode_bytes lin2 input), (c + input.length / 2) % 2 ^ 32)
  | [], f, c, hc => by
    simp only [encode_loop, encode_bytes, pcm16_samples, List.map_nil, fwrite_nil,
      List.length_nil]
    congr 1; omega
  | [_], f, c, hc => by
    simp only [encode_loop, encode_bytes, pcm16_samples, List.map_nil, fwrite_nil,
      List.length_cons, List.length_nil]
    congr 1; omega
  | b0 :: b1 :: rest, f, c, hc => by
    have ih := encode_loop_eq lin2 rest (fwrite f [lin2 (int16_val b0 b1) % 256])
      ((c + 1) % 2 ^ 32) (Nat.mod_lt _ (by decide))
    simp only [encode_loop, ih, fwrite_fwrite, encode_bytes, pcm16_samples, List.map_cons,
      List.length_cons, List.singleton_append]
    congr 1; omega

theorem decode_loop_eq (toLin : Nat → Int) : ∀ (input : List Nat) (f : FILE) (c : Nat),
    c < 2 ^ 32 →
    decode_loop toLin input f c =
      (fwrite f (decode_bytes toLin input), (c + 2 * input.length) % 2 ^ 32)
  | [], f, c, hc => by
    simp only [decode_loop, decode_bytes, List.map_nil, pcm16_bytes, fwrite_nil,
      List.length_nil]
    congr 1; omega
  | b :: rest, f, c, hc => by
    have ih := decode_loop_eq toLin rest (fwrite f (int16_bytes (toLin b)))
      ((c + 2) % 2 ^ 32) (Nat.mod_lt _ (by decide))
    simp only [decode_loop, ih, fwrite_fwrite, decode_bytes, List.map_cons, pcm16_bytes,
      List.length_cons]
    congr 1; omega

/-! ## Lemmas: what `main` writes, mode by mode -/

theorem finish_wav (hdr : wave_file_header_t) (hw : hdr.wf) (body : List Nat) :
    (write_header_to_file hdr (fseek_set (fwrite (fseek_set fopen_w 44) body) 0)).data
      = header_bytes hdr ++ body := by
  rw [write_header_to_file_eq, backfill_data _ _ (header_bytes_length hdr hw)]

theorem main_mode1 (codec : g711) (a0 a1 a2 a3 : String) (input : List Nat)
    (hm : atoi a3 = 1) :
    main codec [a0, a1, a2, a3] input =
      { status := 0
        output := some (wav_wrap (is_wav_name a2)
          (generate_wav_header wave_file_header_zero 16000
            ((payload (is_wav_name a1) input).length / 2 % 2 ^ 32) WAVE_FORMAT_ULAW BPS_8)
          (encode_bytes codec.Snack_Lin2Mulaw (payload (is_wav_name a1) input))) } := by
  have hp : (if is_wav_name a1 = true then (init_wave_struct wave_file_header_zero input).2
      else input) = payload (is_wav_name a1) input := by
    simp only [payload, init_wave_struct_rest]
  simp only [main, hm, if_true, hp, encode_loop_eq _ _ _ 0 (by decide), Nat.zero_add]
  cases hw : is_wav_name a2
  · simp [wav_wrap, fseek_set, fwrite_fopen_w_data]
  · simp only [wav_wrap, if_true, finish_wav _ (generate_wav_header_wf _ _ _ _ _)]

theorem main_mode2 (codec : g711) (a0 a1 a2 a3 : String) (input : List Nat)
    (hm : atoi a3 = 2) :
    main codec [a0, a1, a2, a3] input =
      { status := 0
        output := some (wav_wrap (is_wav_name a2)
          (generate_wav_header wave_file_header_zero 8000
            (2 * (payload (is_wav_name a1) input).length % 2 ^ 32) WAVE_FORMAT_PCM BPS_16)
          (decode_bytes codec.Snack_Mulaw2Lin (payload (is_wav_name a1) input))) } := by
  have hp : (if is_wav_name a1 = true then (init_wave_struct wave_file_header_zero input).2
      else input) = payload (is_wav_name a1) input := by
    simp only [payload, init_wave_struct_rest]
  simp only [main, hm, Int.reduceEq, if_true, if_false, hp, decode_loop_eq _ _ _ 0 (by decide),
    Nat.zero_add]
  cases hw : is_wav_name a2
  · simp [wav_wrap, fwrite_fopen_w_data]
  · simp only [wav_wrap, if_true, finish_wav _ (generate_wav_header_wf _ _ _ _ _)]

theorem main_mode3 (codec : g711) (a0 a1 a2 a3 : String) (input : List Nat)
    (hm : atoi a3 = 3) :
    main codec [a0, a1, a2, a3] input =
      { status := 0
        output := some (wav_wrap (is_wav_name a2)
          (generate_wav_header wave_file_header_zero 22050
            ((payload (is_wav_name a1) input).length / 2 % 2 ^ 32) WAVE_FORMAT_ALAW BPS_8)
          (encode_bytes codec.Snack_Lin2Alaw (payload (is_wav_name a1) input))) } := by
  have hp : (if is_wav_name a1 = true then (init_wave_struct wave_file_header_zero input).2
      else input) = payload (is_wav_name a1) input := by
    simp only [payload, init_wave_struct_rest]
  simp only [main, hm, Int.reduceEq, if_true, if_false, hp, encode_loop_eq _ _ _ 0 (by decide),
    Nat.zero_add]
  cases hw : is_wav_name a2
  · simp [wav_wrap, fwrite_fopen_w_data]
  · simp only [wav_wrap, if_true, finish_wav _ (generate_wav_header_wf _ _ _ _ _)]

theorem main_mode4 (codec : g711) (a0 a1 a2 a3 : String) (input : List Nat)
    (hm : atoi a3 = 4) :
    main codec [a0, a1, a2, a3] input =
      { status := 0
        output := some (wav_wrap (is_wav_name a2)
          (generate_wav_header wave_file_header_zero 22050
            (2 * (payload (is_wav_name a1) input).length % 2 ^ 32) WAVE_FORMAT_PCM BPS_16)
          (decode_bytes codec.Snack_Alaw2Lin (payload (is_wav_name a1) input))) } := by
  have hp : (if is_wav_name a1 = true then (init_wave_struct wave_file_header_zero input).2
      else input) = payload (is_wav_name a1) input := by
    simp only [payload, init_wave_struct_rest]
  simp only [main, hm, Int.reduceEq, if_true, if_false, hp, decode_loop_eq _ _ _ 0 (by decide),
    Nat.zero_add]
  cases hw : is_wav_name a2
  · simp [wav_wrap, fwrite_fopen_w_data]
  · simp only [wav_wrap, if_true, finish_wav _ (generate_wav_header_wf _ _ _ _ _)]

theorem main_other_mode (codec : g711) (a0 a1 a2 a3 : String) (input : List Nat)
    (hm : ¬ (1 ≤ atoi a3 ∧ atoi a3 ≤ 4)) :
    main codec [a0, a1, a2, a3] input = { status := 0, output := some [] } := by
  have h1 : atoi a3 ≠ 1 := by omega
  have h2 : atoi a3 ≠ 2 := by omega
  have h3 : atoi a3 ≠ 3 := by omega
  have h4 : atoi a3 ≠ 4 := by omega
  simp only [main, h1, h2, h3, h4, if_false]
  cases is_wav_name a2 <;> simp [fseek_set, fopen_w]

/-! ## Lemmas: file names -/

theorem strrchr_append_wav (stem ext : List Char) (h : strrchr ext '.' = some ext) :
    strrchr (stem ++ ext) '.' = some ext := by
  induction stem with
  | nil => simpa using h
  | cons c cs ih => simp [strrchr, ih]

theorem is_wav_name_lower (stem : String) : is_wav_name (stem ++ ".wav") = true := by
  have h := strrchr_append_wav stem.data ".wav".data (by decide)
  simp only [is_wav_name, String.data_append, h]
  decide

theorem is_wav_name_upper (stem : String) : is_wav_name (stem ++ ".WAV") = true := by
  have h := strrchr_append_wav stem.data ".WAV".data (by decide)
  simp only [is_wav_name, String.data_append, h]
  decide

theorem strrchr_suffix : ∀ (s : List Char) (c : Char) (r : List Char),
    strrchr s c = some r → r <:+ s
  | [], _, _, h => by simp [strrchr] at h
  | x :: xs, c, r, h => by
    simp only [strrchr] at h
    cases hr : strrchr xs c with
    | some r1 =>
      rw [hr] at h
      simp only [Option.some.injEq] at h
      subst h
      exact (strrchr_suffix xs c r1 hr).trans (List.suffix_cons x xs)
    | none =>
      rw [hr] at h
      by_cases hx : x = c
      · simp only [hx, if_true, Option.some.injEq] at h
        rw [← h, hx]
      · simp [hx] at h

theorem is_wav_name_iff (name : String) : is_wav_name name = true ↔ ends_in_wav name := by
  constructor
  · intro h
    unfold is_wav_name at h
    cases hr : strrchr name.data '.' with
    | none => rw [hr] at h; simp at h
    | some ext =>
      rw [hr] at h
      have hs := strrchr_suffix _ _ _ hr
      simp only [Bool.or_eq_true, decide_eq_true_eq] at h
      rcases h with h | h
      · subst h; exact Or.inl hs
      · subst h; exact Or.inr hs
  · rintro (⟨stem, h⟩ | ⟨stem, h⟩)
    · have e : name = String.mk stem ++ ".wav" := by
        apply String.ext; simp [h]
      rw [e]; exact is_wav_name_lower _
    · have e : name = String.mk stem ++ ".WAV" := by
        apply String.ext; simp [h]
      rw [e]; exact is_wav_name_upper _

theorem is_wav_name_false (name : String) (h : ¬ ends_in_wav name) :
    is_wav_name name = false := by
  cases hw : is_wav_name name
  · rfl
  · exact absurd ((is_wav_name_iff name).1 hw) h

/-! ## Lemmas: the fields of a generated header -/

theorem field16_append (pre post : List Nat) (n off : Nat) (h : pre.length = off) :
    field16 (pre ++ le16 n ++ post) off = n % 2 ^ 16 := by
  subst h
  rw [field16, List.append_assoc, List.drop_left, List.take_left' (le16_length n), le_val_le16]

theorem field32_append (pre post : List Nat) (n off : Nat) (h : pre.length = off) :
    field32 (pre ++ le32 n ++ post) off = n % 2 ^ 32 := by
  subst h
  rw [field32, List.append_assoc, List.drop_left, List.take_left' (le32_length n), le_val_le32]

/-- The fields of a file that starts with the 44 bytes of a header. -/
theorem header_fields (h : wave_file_header_t) (hw : h.wf) (data : List Nat) :
    field32 (header_bytes h ++ data) 4 = h.file_size % 2 ^ 32 ∧
    field16 (header_bytes h ++ data) 20 = h.fmt_type % 2 ^ 16 ∧
    field32 (header_bytes h ++ data) 24 = h.sample_rate % 2 ^ 32 ∧
    field16 (header_bytes h ++ data) 34 = h.bits_per_sample % 2 ^ 16 ∧
    field32 (header_bytes h ++ data) 40 = h.data_size % 2 ^ 32 := by
  obtain ⟨⟨h1, h2, h3, h4⟩, _⟩ := hw
  refine ⟨?_, ?_, ?_, ?_, ?_⟩
  · have e : header_bytes h ++ data = h.type.take 4 ++ le32 h.file_size ++
        (h.wave_marker.take 4 ++ h.fmt.take 4 ++
        le32 h.fmt_length ++ le16 h.fmt_type ++ le16 h.num_channels ++ le32 h.sample_rate ++
        le32 h.sample_calc1 ++ le16 h.bit_mode ++ le16 h.bits_per_sample ++
        h.data_marker.take 4 ++ le32 h.data_size ++ data) := by
      simp only [header_bytes, List.append_assoc]
    rw [e]; apply field32_append
    simp only [List.length_take, h1]; rfl
  · have e : header_bytes h ++ data = (h.type.take 4 ++ le32 h.file_size ++
        h.wave_marker.take 4 ++ h.fmt.take 4 ++ le32 h.fmt_length) ++ le16 h.fmt_type ++
        (le16 h.num_channels ++ le32 h.sample_rate ++
        le32 h.sample_calc1 ++ le16 h.bit_mode ++ le16 h.bits_per_sample ++
        h.data_marker.take 4 ++ le32 h.data_size ++ data) := by
      simp only [header_bytes, List.append_assoc]
    rw [e]; apply field16_append
    simp only [List.length_append, List.length_take, le32_length, h1, h2, h3]; rfl
  · have e : header_bytes h ++ data = (h.type.take 4 ++ le32 h.file_size ++
        h.wave_marker.take 4 ++ h.fmt.take 4 ++ le32 h.fmt_length ++ le16 h.fmt_type ++
        le16 h.num_channels) ++ le32 h.sample_rate ++
        (le32 h.sample_calc1 ++ le16 h.bit_mode ++ le16 h.bits_per_sample ++
        h.data_marker.take 4 ++ le32 h.data_size ++ data) := by
      simp only [header_bytes, List.append_assoc]
    rw [e]; apply field32_append
    simp only [List.length_append, List.length_take, le32_length, le16_length, h1, h2, h3]; rfl
  · have e : header_bytes h ++ data = (h.type.take 4 ++ le32 h.file_size ++
        h.wave_marker.take 4 ++ h.fmt.take 4 ++ le32 h.fmt_length ++ le16 h.fmt_type ++
        le16 h.num_channels ++ le32 h.sample_rate ++
        le32 h.sample_calc1 ++ le16 h.bit_mode) ++ le16 h.bits_per_sample ++
        (h.data_marker.take 4 ++ le32 h.data_size ++ data) := by
      simp only [header_bytes, List.append_assoc]
    rw [e]; apply field16_append
    simp only [List.length_append, List.length_take, le32_length, le16_length, h1, h2, h3]; rfl
  · have e : header_bytes h ++ data = (h.type.take 4 ++ le32 h.file_size ++
        h.wave_marker.take 4 ++ h.fmt.take 4 ++ le32 h.fmt_length ++ le16 h.fmt_type ++
        le16 h.num_channels ++ le32 h.sample_rate ++
        le32 h.sample_calc1 ++ le16 h.bit_mode ++ le16 h.bits_per_sample ++
        h.data_marker.take 4) ++ le32 h.data_size ++ data := by
      simp only [header_bytes, List.append_assoc]
    rw [e]; apply field32_append
    simp only [List.length_append, List.length_take, le32_length, le16_length, h1, h2, h3, h4]
    rfl

theorem list_of_length_five (l : List Nat) (h : l.length = 5) :
    ∃ a b c d e, l = [a, b, c, d, e] := by
  match l, h with
  | [a, b, c, d, e], _ => exact ⟨a, b, c, d, e, rfl⟩

/-- The thirteen slices of the 44 header bytes. -/
theorem header_slices (h : wave_file_header_t) (hw : h.wf) :
    (header_bytes h).take 4 = h.type.take 4 ∧
    ((header_bytes h).drop 4).take 4 = le32 h.file_size ∧
    ((header_bytes h).drop 8).take 4 = h.wave_marker.take 4 ∧
    ((header_bytes h).drop 12).take 4 = h.fmt.take 4 ∧
    ((header_bytes h).drop 16).take 4 = le32 h.fmt_length ∧
    ((header_bytes h).drop 20).take 2 = le16 h.fmt_type ∧
    ((header_bytes h).drop 22).take 2 = le16 h.num_channels ∧
    ((header_bytes h).drop 24).take 4 = le32 h.sample_rate ∧
    ((header_bytes h).drop 28).take 4 = le32 h.sample_calc1 ∧
    ((header_bytes h).drop 32).take 2 = le16 h.bit_mode ∧
    ((header_bytes h).drop 34).take 2 = le16 h.bits_per_sample ∧
    ((header_bytes h).drop 36).take 4 = h.data_marker.take 4 ∧
    ((header_bytes h).drop 40).take 4 = le32 h.data_size := by
  obtain ⟨⟨h1, h2, h3, h4⟩, _⟩ := hw
  obtain ⟨a1, b1, c1, d1, e1, t1⟩ := list_of_length_five _ h1
  obtain ⟨a2, b2, c2, d2, e2, t2⟩ := list_of_length_five _ h2
  obtain ⟨a3, b3, c3, d3, e3, t3⟩ := list_of_length_five _ h3
  obtain ⟨a4, b4, c4, d4, e4, t4⟩ := list_of_length_five _ h4
  simp only [header_bytes, t1, t2, t3, t4, le16, le32, List.cons_append, List.nil_append,
    List.drop_succ_cons, List.take_succ_cons, List.take_zero, List.drop_zero, and_self]

/-- The members `generate_wav_header` computes. -/
theorem generate_wav_header_members (h0 : wave_file_header_t) (sr bc ft bps : Nat) :
    (generate_wav_header h0 sr bc ft bps).file_size = (bc % 2 ^ 32 + 36) % 2 ^ 32 ∧
    (generate_wav_header h0 sr bc ft bps).fmt_length = 16 ∧
    (generate_wav_header h0 sr bc ft bps).fmt_type = ft % 2 ^ 16 ∧
    (generate_wav_header h0 sr bc ft bps).num_channels = 1 ∧
    (generate_wav_header h0 sr bc ft bps).sample_rate = sr % 2 ^ 32 ∧
    (generate_wav_header h0 sr bc ft bps).sample_calc1
      = (sr % 2 ^ 32) * (bps % 2 ^ 16) % 2 ^ 32 / 4 ∧
    (generate_wav_header h0 sr bc ft bps).bit_mode = bps % 2 ^ 16 / 8 ∧
    (generate_wav_header h0 sr bc ft bps).bits_per_sample = bps % 2 ^ 16 ∧
    (generate_wav_header h0 sr bc ft bps).data_size = bc % 2 ^ 32 := by
  refine ⟨?_, rfl, rfl, rfl, rfl, ?_, ?_, rfl, rfl⟩
  · simp only [generate_wav_header]; omega
  · simp only [generate_wav_header, Nat.mul_one, Nat.mod_mod]
  · simp only [generate_wav_header]; omega

/-- The fields of a file that starts with a generated header. -/
theorem generated_fields (h0 : wave_file_header_t) (sr bc ft bps : Nat) (data : List Nat) :
    (header_bytes (generate_wav_header h0 sr bc ft bps) ++ data).length = 44 + data.length ∧
    field32 (header_bytes (generate_wav_header h0 sr bc ft bps) ++ data) 4
      = (bc % 2 ^ 32 + 36) % 2 ^ 32 ∧
    field16 (header_bytes (generate_wav_header h0 sr bc ft bps) ++ data) 20 = ft % 2 ^ 16 ∧
    field32 (header_bytes (generate_wav_header h0 sr bc ft bps) ++ data) 24 = sr % 2 ^ 32 ∧
    field16 (header_bytes (generate_wav_header h0 sr bc ft bps) ++ data) 34 = bps % 2 ^ 16 ∧
    field32 (header_bytes (generate_wav_header h0 sr bc ft bps) ++ data) 40 = bc % 2 ^ 32 := by
  have hw := generate_wav_header_wf h0 sr bc ft bps
  obtain ⟨f1, f2, f3, f4, f5⟩ := header_fields _ hw data
  obtain ⟨m1, _, m3, _, m5, _, _, m8, m9⟩ := generate_wav_header_members h0 sr bc ft bps
  refine ⟨?_, ?_, ?_, ?_, ?_, ?_⟩
  · rw [List.length_append, header_bytes_length _ hw]
  · rw [f1, m1]; omega
  · rw [f2, m3]; omega
  · rw [f3, m5]; omega
  · rw [f4, m8]; omega
  · rw [f5, m9]; omega

theorem encode_bytes_length (lin2 : Int → Nat) (input : List Nat) :
    (encode_bytes lin2 input).length = (pcm16_samples input).length := by
  simp only [encode_bytes, List.length_map]

theorem decode_bytes_length (toLin : Nat → Int) (input : List Nat) :
    (decode_bytes toLin input).length = 2 * input.length := by
  simp only [decode_bytes, pcm16_bytes_length, List.length_map]

/-! ## The driver in mode 1 with a wave header on both sides -/

theorem atoi_one : atoi "1" = 1 := by decide

theorem atoi_two : atoi "2" = 2 := by decide

/-- The result of `atoi` is an `int`; digits past 32 bits wrap, so a mode argument such as
`"4294967297"` selects case 1. -/
theorem atoi_is_int (s : String) :
    (-2147483648 ≤ atoi s ∧ atoi s ≤ 2147483647) ∧ atoi "4294967297" = 1 := by
  refine ⟨?_, by decide⟩
  simp only [atoi, long_to_int]
  omega

/-- Mode 1, `.wav` in and out: the output is a generated header followed by the code bytes,
and the data-length field is the sample count reduced to 32 bits. -/
theorem mode1_wav_fields (codec : g711) (prog inName outName : String) (input : List Nat)
    (hin : ends_in_wav inName) (hout : ends_in_wav outName) :
    ∃ out, main codec [prog, inName, outName, "1"] input = { status := 0, output := some out } ∧
      44 ≤ out.length ∧ field16 out 20 = 7 ∧ field32 out 24 = 16000 ∧ field16 out 34 = 8 ∧
      field32 out 40 = (pcm16_samples (input.drop 44)).length % 2 ^ 32 := by
  have hi := (is_wav_name_iff inName).2 hin
  have ho := (is_wav_name_iff outName).2 hout
  refine ⟨_, main_mode1 codec prog inName outName "1" input atoi_one, ?_⟩
  simp only [hi, ho, wav_wrap, payload, if_true]
  obtain ⟨g0, _, g2, g3, g4, g5⟩ := generated_fields wave_file_header_zero 16000
    ((input.drop 44).length / 2 % 2 ^ 32) WAVE_FORMAT_ULAW BPS_8
    (encode_bytes codec.Snack_Lin2Mulaw (input.drop 44))
  refine ⟨by rw [g0]; omega, g2, g3, g4, ?_⟩
  rw [g5, pcm16_samples_length, Nat.mod_mod]

/-- C1 (amended): for every input name and output name ending in `.wav`/`.WAV`, `main` with
mode argument `"1"` returns 0 and writes a file that begins with a 44-byte header whose
format-code field is 7, sample-rate field 16000, bits-per-sample field 8, and whose
data-length field is the number of 16-bit samples after the 44-byte input header reduced
modulo 2^32, hence that number itself whenever it is below 2^32. -/
theorem C1_mode1_wav_header (codec : g711) (prog inName outName : String) (input : List Nat)
    (hin : ends_in_wav inName) (hout : ends_in_wav outName) :
    ∃ out, main codec [prog, inName, outName, "1"] input = { status := 0, output := some out } ∧
      44 ≤ out.length ∧ field16 out 20 = 7 ∧ field32 out 24 = 16000 ∧ field16 out 34 = 8 ∧
      field32 out 40 = (pcm16_samples (input.drop 44)).length % 2 ^ 32 ∧
      ((pcm16_samples (input.drop 44)).length < 2 ^ 32 →
        field32 out 40 = (pcm16_samples (input.drop 44)).length) := by
  obtain ⟨out, h1, h2, h3, h4, h5, h6⟩ := mode1_wav_fields codec prog inName outName input hin hout
  exact ⟨out, h1, h2, h3, h4, h5, h6, fun hlt => by rw [h6, Nat.mod_eq_of_lt hlt]⟩

/-- C1 at a wave file of three samples. -/
theorem C1_mode1_wav_header_witness :
    ends_in_wav "speech.wav" ∧ ends_in_wav "speech_ulaw.WAV" ∧
    ∃ out, main snack_g711 ["convert", "speech.wav", "speech_ulaw.WAV", "1"]
        (List.replicate 44 0 ++ [0, 0, 123, 127, 0, 128]) = { status := 0, output := some out } ∧
      44 ≤ out.length ∧ field16 out 20 = 7 ∧ field32 out 24 = 16000 ∧ field16 out 34 = 8 ∧
      field32 out 40 =
        (pcm16_samples ((List.replicate 44 0 ++ [0, 0, 123, 127, 0, 128]).drop 44)).length
          % 2 ^ 32 ∧
      ((pcm16_samples ((List.replicate 44 0 ++ [0, 0, 123, 127, 0, 128]).drop 44)).length
          < 2 ^ 32 →
        field32 out 40 =
          (pcm16_samples ((List.replicate 44 0 ++ [0, 0, 123, 127, 0, 128]).drop 44)).length) :=
  ⟨by decide, by decide,
    C1_mode1_wav_header snack_g711 "convert" "speech.wav" "speech_ulaw.WAV" _
      (by decide) (by decide)⟩

/-- C1 as stated fails on an input of 2^32 samples: `byte_count` is a `uint32_t` and has
wrapped to 0 when the header is generated, so the data-length field is 0, not 2^32. -/
theorem C1_counterexample_uint32_wrap :
    ∃ out, main snack_g711 ["convert", "speech.wav", "speech_ulaw.wav", "1"]
        (List.replicate (2 ^ 33 + 44) 0) = { status := 0, output := some out } ∧
      field32 out 40 = 0 ∧
      (pcm16_samples ((List.replicate (2 ^ 33 + 44) 0).drop 44)).length = 2 ^ 32 ∧
      field32 out 40 ≠ (pcm16_samples ((List.replicate (2 ^ 33 + 44) 0).drop 44)).length := by
  obtain ⟨out, h1, _, _, _, _, h6⟩ := mode1_wav_fields snack_g711 "convert" "speech.wav"
    "speech_ulaw.wav" (List.replicate (2 ^ 33 + 44) 0) (by decide) (by decide)
  have hn : (pcm16_samples ((List.replicate (2 ^ 33 + 44) 0).drop 44)).length = 2 ^ 32 := by
    rw [pcm16_samples_length, List.length_drop, List.length_replicate]
    norm_num
  have h0 : field32 out 40 = 0 := by rw [h6, hn]; norm_num
  exact ⟨out, h1, h0, hn, by rw [h0, hn]; norm_num⟩

/-! ## The codec model: round trips and test vectors -/

/-- C2 as stated fails for mu-law at the byte `0x7F` (negative zero): it decodes to 0, as
`0xFF` does, and 0 encodes to `0xFF`. -/
theorem C2_counterexample_mulaw_negative_zero :
    Snack_Mulaw2Lin 0x7F = 0 ∧ Snack_Lin2Mulaw (Snack_Mulaw2Lin 0x7F) = 0xFF ∧
    ¬ (∀ y : Nat, y < 256 →
        Snack_Lin2Mulaw (Snack_Mulaw2Lin y) = y ∧ Snack_Lin2Alaw (Snack_Alaw2Lin y) = y) := by
  refine ⟨by decide, by decide, fun h => ?_⟩
  exact absurd (h 0x7F (by decide)).1 (by decide)

set_option maxRecDepth 100000 in
/-- C2 (amended): for every 8-bit value `y`, `Snack_Lin2Alaw (Snack_Alaw2Lin y) = y`, and
for every 8-bit value `y` other than `0x7F`, `Snack_Lin2Mulaw (Snack_Mulaw2Lin y) = y`. -/
theorem C2_companded_round_trip (y : Nat) (hy : y < 256) :
    Snack_Lin2Alaw (Snack_Alaw2Lin y) = y ∧
    (y ≠ 0x7F → Snack_Lin2Mulaw (Snack_Mulaw2Lin y) = y) := by
  have h : ∀ z : Fin 256, Snack_Lin2Alaw (Snack_Alaw2Lin z.val) = z.val ∧
      (z.val ≠ 0x7F → Snack_Lin2Mulaw (Snack_Mulaw2Lin z.val) = z.val) := by decide
  exact h ⟨y, hy⟩

/-- C2 at the byte `0xD5` (A-law zero, and an ordinary mu-law byte). -/
theorem C2_companded_round_trip_witness :
    (0xD5 : Nat) < 256 ∧ Snack_Lin2Alaw (Snack_Alaw2Lin 0xD5) = 0xD5 ∧
    ((0xD5 : Nat) ≠ 0x7F → Snack_Lin2Mulaw (Snack_Mulaw2Lin 0xD5) = 0xD5) :=
  ⟨by decide, C2_companded_round_trip 0xD5 (by decide)⟩

/-- C3: the codec functions return the known test vectors of the spec:
`Snack_Lin2Mulaw 0 = 0xFF`, `Snack_Lin2Mulaw 32635 = 0x80`, `Snack_Mulaw2Lin 0xFF = 0`,
`Snack_Lin2Alaw 0 = 0xD5` and `Snack_Alaw2Lin 0xD5 = 8`. -/
theorem C3_known_test_vectors :
    Snack_Lin2Mulaw 0 = 0xFF ∧ Snack_Lin2Mulaw 32635 = 0x80 ∧ Snack_Mulaw2Lin 0xFF = 0 ∧
    Snack_Lin2Alaw 0 = 0xD5 ∧ Snack_Alaw2Lin 0xD5 = 8 := by
  decide

/-! ## The generated header -/

/-- C5 fails on the code: for the header of mode 1 (`sample_rate` 16000, 8 bits per sample,
one channel) the documented byte rate `(16000 * 8 * 1) / 8` is 16000, but
`generate_wav_header` divides by 4 and sets `sample_calc1` to 32000. -/
theorem C5_byte_rate_divided_by_four :
    (generate_wav_header wave_file_header_zero 16000 0 WAVE_FORMAT_ULAW BPS_8).sample_calc1
      = 32000 ∧
    (generate_wav_header wave_file_header_zero 16000 0 WAVE_FORMAT_ULAW BPS_8).sample_calc1
      ≠ (16000 * 8 * 1) / 8 := by
  decide

/-- C6: for every `sample_rate`, `byte_count`, `fmt_type` and `bps` (of their C types), the
bytes `write_header_to_file` emits for the header built by `generate_wav_header` are exactly
44 and follow the documented layout: `"RIFF"` at 0, the 32-bit file size at 4, `"WAVE"` at 8,
`"fmt "` at 12, the 32-bit value 16 at 16, the 16-bit `fmt_type` at 20, the 16-bit channel
count 1 at 22, the 32-bit `sample_rate` at 24, the 32-bit byte-rate member `sample_calc1` at
28, the 16-bit block align `(bps * 1) / 8` at 32, the 16-bit `bps` at 34, `"data"` at 36 and
the 32-bit `byte_count` at 40.  The file-size member is `byte_count + 36` (in 32 bits) and the
byte-rate member is what `generate_wav_header` computes, `sample_rate * bps / 4`. -/
theorem C6_generated_header_layout (h0 : wave_file_header_t)
    (sample_rate byte_count fmt_type bps : Nat)
    (hsr : sample_rate < 2 ^ 32) (hbc : byte_count < 2 ^ 32)
    (hft : fmt_type < 2 ^ 16) (hbps : bps < 2 ^ 16) :
    ∃ bytes : List Nat,
      (∀ f : FILE,
        write_header_to_file (generate_wav_header h0 sample_rate byte_count fmt_type bps) f
          = fwrite f bytes) ∧
      (write_header_to_file (generate_wav_header h0 sample_rate byte_count fmt_type bps)
        fopen_w).data = bytes ∧
      bytes.length = 44 ∧
      bytes.take 4 = tag4 "RIFF" ∧
      (bytes.drop 4).take 4
        = le32 (generate_wav_header h0 sample_rate byte_count fmt_type bps).file_size ∧
      (bytes.drop 8).take 4 = tag4 "WAVE" ∧
      (bytes.drop 12).take 4 = tag4 "fmt " ∧
      (bytes.drop 16).take 4 = le32 16 ∧
      (bytes.drop 20).take 2 = le16 fmt_type ∧
      (bytes.drop 22).take 2 = le16 1 ∧
      (bytes.drop 24).take 4 = le32 sample_rate ∧
      (bytes.drop 28).take 4
        = le32 (generate_wav_header h0 sample_rate byte_count fmt_type bps).sample_calc1 ∧
      (bytes.drop 32).take 2 = le16 ((bps * 1) / 8) ∧
      (bytes.drop 34).take 2 = le16 bps ∧
      (bytes.drop 36).take 4 = tag4 "data" ∧
      (bytes.drop 40).take 4 = le32 byte_count ∧
      (generate_wav_header h0 sample_rate byte_count fmt_type bps).file_size
        = (byte_count + 36) % 2 ^ 32 ∧
      (generate_wav_header h0 sample_rate byte_count fmt_type bps).sample_calc1
        = sample_rate * bps % 2 ^ 32 / 4 := by
  obtain ⟨m1, m2, m3, m4, m5, m6, m7, m8, m9⟩ :=
    generate_wav_header_members h0 sample_rate byte_count fmt_type bps
  refine ⟨header_bytes (generate_wav_header h0 sample_rate byte_count fmt_type bps),
    fun f => write_header_to_file_eq _ f, ?_,
    header_bytes_length _ (generate_wav_header_wf _ _ _ _ _), ?_⟩
  · rw [write_header_to_file_eq, fwrite_fopen_w_data]
  obtain ⟨s1, s2, s3, s4, s5, s6, s7, s8, s9, s10, s11, s12, s13⟩ :=
    header_slices _ (generate_wav_header_wf h0 sample_rate byte_count fmt_type bps)
  refine ⟨s1.trans rfl, s2, s3.trans rfl, s4.trans rfl, ?_, ?_, ?_, ?_, s9, ?_, ?_,
    s12.trans rfl, ?_, ?_, ?_⟩
  · rw [s5, m2]
  · rw [s6, m3, Nat.mod_eq_of_lt hft]
  · rw [s7, m4]
  · rw [s8, m5, Nat.mod_eq_of_lt hsr]
  · rw [s10, m7, Nat.mod_eq_of_lt hbps, Nat.mul_one]
  · rw [s11, m8, Nat.mod_eq_of_lt hbps]
  · rw [s13, m9, Nat.mod_eq_of_lt hbc]
  · rw [m1, Nat.mod_eq_of_lt hbc]
  · rw [m6, Nat.mod_eq_of_lt hsr, Nat.mod_eq_of_lt hbps]

/-- C6 at the header of mode 1 for ten data bytes. -/
theorem C6_generated_header_layout_witness :
    (16000 < 2 ^ 32 ∧ 10 < 2 ^ 32 ∧ 7 < 2 ^ 16 ∧ 8 < 2 ^ 16) ∧
    ∃ bytes : List Nat,
      (∀ f : FILE,
        write_header_to_file (generate_wav_header wave_file_header_zero 16000 10 7 8) f
          = fwrite f bytes) ∧
      (write_header_to_file (generate_wav_header wave_file_header_zero 16000 10 7 8)
        fopen_w).data = bytes ∧
      bytes.length = 44 ∧
      bytes.take 4 = tag4 "RIFF" ∧
      (bytes.drop 4).take 4
        = le32 (generate_wav_header wave_file_header_zero 16000 10 7 8).file_size ∧
      (bytes.drop 8).take 4 = tag4 "WAVE" ∧
      (bytes.drop 12).take 4 = tag4 "fmt " ∧
      (bytes.drop 16).take 4 = le32 16 ∧
      (bytes.drop 20).take 2 = le16 7 ∧
      (bytes.drop 22).take 2 = le16 1 ∧
      (bytes.drop 24).take 4 = le32 16000 ∧
      (bytes.drop 28).take 4
        = le32 (generate_wav_header wave_file_header_zero 16000 10 7 8).sample_calc1 ∧
      (bytes.drop 32).take 2 = le16 ((8 * 1) / 8) ∧
      (bytes.drop 34).take 2 = le16 8 ∧
      (bytes.drop 36).take 4 = tag4 "data" ∧
      (bytes.drop 40).take 4 = le32 10 ∧
      (generate_wav_header wave_file_header_zero 16000 10 7 8).file_size
        = (10 + 36) % 2 ^ 32 ∧
      (generate_wav_header wave_file_header_zero 16000 10 7 8).sample_calc1
        = 16000 * 8 % 2 ^ 32 / 4 :=
  ⟨by decide, C6_generated_header_layout wave_file_header_zero 16000 10 7 8
    (by decide) (by decide) (by decide) (by decide)⟩

/-! ## Writing a header and reading it back -/

theorem fread_four (a b c d : Nat) (rest : List Nat) :
    fread 4 (a :: b :: c :: d :: rest) = ([a, b, c, d], rest) := rfl

theorem fread_two (a b : Nat) (rest : List Nat) : fread 2 (a :: b :: rest) = ([a, b], rest) := rfl

theorem overlay_tag (cur : List Nat) (a b c d : Nat) :
    overlay cur [a, b, c, d] = a :: b :: c :: d :: cur.drop 4 := rfl

theorem overlay_le32 (x a b c d : Nat) : overlay (le32 x) [a, b, c, d] = [a, b, c, d] := rfl

theorem overlay_le16 (x a b : Nat) : overlay (le16 x) [a, b] = [a, b] := rfl

theorem take_four_set (a b c d : Nat) (l : List Nat) :
    ((a :: b :: c :: d :: l).set 4 0).take 4 = [a, b, c, d] := by
  cases l <;> rfl

theorem take_four_cons (a b c d : Nat) (l : List Nat) :
    (a :: b :: c :: d :: l).take 4 = [a, b, c, d] := rfl

/-- Reading back the 44 bytes of a header: what `init_wave_struct` stores. -/
theorem init_wave_struct_header_bytes (h h0 : wave_file_header_t) (hw : h.wf) :
    ∃ h1 : wave_file_header_t, init_wave_struct h0 (header_bytes h) = (h1, []) ∧
      h1.type.take 4 = h.type.take 4 ∧ h1.wave_marker.take 4 = h.wave_marker.take 4 ∧
      h1.fmt.take 4 = h.fmt.take 4 ∧ h1.data_marker.take 4 = h.data_marker.take 4 ∧
      h1.file_size = h.file_size ∧ h1.fmt_length = h.fmt_length ∧ h1.fmt_type = h.fmt_type ∧
      h1.num_channels = h.num_channels ∧ h1.sample_rate = h.sample_rate ∧
      h1.sample_calc1 = h.sample_calc1 ∧ h1.bit_mode = h.bit_mode ∧
      h1.bits_per_sample = h.bits_per_sample ∧ h1.data_size = h.data_size := by
  have hrest : init_wave_struct h0 (header_bytes h)
      = ((init_wave_struct h0 (header_bytes h)).1, []) := by
    have e := init_wave_struct_rest h0 (header_bytes h)
    rw [List.drop_of_length_le (le_of_eq (header_bytes_length h hw))] at e
    exact Prod.ext rfl e
  refine ⟨(init_wave_struct h0 (header_bytes h)).1, hrest, ?_⟩
  obtain ⟨⟨l1, l2, l3, l4⟩, r1, r2, r3, r4, r5, r6, r7, r8, r9⟩ := hw
  obtain ⟨a1, b1, c1, d1, e1, t1⟩ := list_of_length_five _ l1
  obtain ⟨a2, b2, c2, d2, e2, t2⟩ := list_of_length_five _ l2
  obtain ⟨a3, b3, c3, d3, e3, t3⟩ := list_of_length_five _ l3
  obtain ⟨a4, b4, c4, d4, e4, t4⟩ := list_of_length_five _ l4
  simp only [header_bytes, t1, t2, t3, t4, le16, le32, List.cons_append, List.nil_append,
    take_four_cons]
  simp only [init_wave_struct]
  simp only [fread_four, fread_two]
  simp only [overlay_le32, overlay_le16, overlay_tag, le_val, take_four_set, take_four_cons,
    true_and]
  refine ⟨?_, ?_, ?_, ?_, ?_, ?_, ?_, ?_, ?_⟩ <;> omega

/-- C10: for every `wave_file_header_t` value `h`, `write_header_to_file` emits 44 bytes and
`init_wave_struct` on those bytes consumes them all and yields a header whose four 4-byte
tags (`type`, `wave_marker`, `fmt`, `data_marker`) and nine numeric members all equal those
of `h`. -/
theorem C10_header_write_read_round_trip (h h0 : wave_file_header_t) (hw : h.wf) :
    (write_header_to_file h fopen_w).data.length = 44 ∧
    ∃ h1 : wave_file_header_t,
      init_wave_struct h0 (write_header_to_file h fopen_w).data = (h1, []) ∧
      h1.type.take 4 = h.type.take 4 ∧ h1.wave_marker.take 4 = h.wave_marker.take 4 ∧
      h1.fmt.take 4 = h.fmt.take 4 ∧ h1.data_marker.take 4 = h.data_marker.take 4 ∧
      h1.file_size = h.file_size ∧ h1.fmt_length = h.fmt_length ∧ h1.fmt_type = h.fmt_type ∧
      h1.num_channels = h.num_channels ∧ h1.sample_rate = h.sample_rate ∧
      h1.sample_calc1 = h.sample_calc1 ∧ h1.bit_mode = h.bit_mode ∧
      h1.bits_per_sample = h.bits_per_sample ∧ h1.data_size = h.data_size := by
  rw [write_header_to_file_eq, fwrite_fopen_w_data]
  exact ⟨header_bytes_length h hw, init_wave_struct_header_bytes h h0 hw⟩

/-- C10 at a stereo CD-quality header, read into a zeroed struct. -/
theorem C10_header_write_read_round_trip_witness :
    sample_header.wf ∧
    (write_header_to_file sample_header fopen_w).data.length = 44 ∧
    ∃ h1 : wave_file_header_t,
      init_wave_struct wave_file_header_zero (write_header_to_file sample_header fopen_w).data
        = (h1, []) ∧
      h1.type.take 4 = sample_header.type.take 4 ∧
      h1.wave_marker.take 4 = sample_header.wave_marker.take 4 ∧
      h1.fmt.take 4 = sample_header.fmt.take 4 ∧
      h1.data_marker.take 4 = sample_header.data_marker.take 4 ∧
      h1.file_size = sample_header.file_size ∧ h1.fmt_length = sample_header.fmt_length ∧
      h1.fmt_type = sample_header.fmt_type ∧ h1.num_channels = sample_header.num_channels ∧
      h1.sample_rate = sample_header.sample_rate ∧
      h1.sample_calc1 = sample_header.sample_calc1 ∧ h1.bit_mode = sample_header.bit_mode ∧
      h1.bits_per_sample = sample_header.bits_per_sample ∧
      h1.data_size = sample_header.data_size :=
  ⟨by decide, C10_header_write_read_round_trip sample_header wave_file_header_zero (by decide)⟩

/-! ## The driver: sizes, formats, modes -/

theorem main_output_eq (codec : g711) (argv : List String) (input out : List Nat) (st : Int)
    (h : main codec argv input = { status := st, output := some out }) :
    main_output codec argv input = out := by
  simp only [main_output, h, Option.getD_some]

/-- With a `.wav` output name and a mode in 1..4 the output is a generated header followed
by the converted data, and the header's `byte_count` is the data length reduced to 32 bits. -/
theorem main_wav_output (codec : g711) (prog inName outName mode : String) (input : List Nat)
    (hout : ends_in_wav outName) (hmode : 1 ≤ atoi mode ∧ atoi mode ≤ 4) :
    ∃ (sr bc ft bps : Nat) (data : List Nat),
      main codec [prog, inName, outName, mode] input =
        { status := 0
          output := some
            (header_bytes (generate_wav_header wave_file_header_zero sr bc ft bps) ++ data) } ∧
      bc = data.length % 2 ^ 32 ∧
      data.length = (if atoi mode = 1 ∨ atoi mode = 3
        then (pcm16_samples (payload (is_wav_name inName) input)).length
        else 2 * (payload (is_wav_name inName) input).length) ∧
      (sr, ft, bps) = (if atoi mode = 1 then (16000, 7, 8) else if atoi mode = 2 then (8000, 1, 16)
        else if atoi mode = 3 then (22050, 6, 8) else (22050, 1, 16)) := by
  have ho := (is_wav_name_iff outName).2 hout
  have hcases : atoi mode = 1 ∨ atoi mode = 2 ∨ atoi mode = 3 ∨ atoi mode = 4 := by omega
  rcases hcases with hm | hm | hm | hm
  · refine ⟨16000, (payload (is_wav_name inName) input).length / 2 % 2 ^ 32, WAVE_FORMAT_ULAW,
      BPS_8, encode_bytes codec.Snack_Lin2Mulaw (payload (is_wav_name inName) input),
      ?_, ?_, ?_, ?_⟩
    · rw [main_mode1 codec prog inName outName mode input hm, ho]; rfl
    · rw [encode_bytes_length, pcm16_samples_length]
    · rw [encode_bytes_length]; simp [hm]
    · simp [hm, WAVE_FORMAT_ULAW, BPS_8]
  · refine ⟨8000, 2 * (payload (is_wav_name inName) input).length % 2 ^ 32, WAVE_FORMAT_PCM,
      BPS_16, decode_bytes codec.Snack_Mulaw2Lin (payload (is_wav_name inName) input),
      ?_, ?_, ?_, ?_⟩
    · rw [main_mode2 codec prog inName outName mode input hm, ho]; rfl
    · rw [decode_bytes_length]
    · rw [decode_bytes_length]; simp [hm]
    · simp [hm, WAVE_FORMAT_PCM, BPS_16]
  · refine ⟨22050, (payload (is_wav_name inName) input).length / 2 % 2 ^ 32, WAVE_FORMAT_ALAW,
      BPS_8, encode_bytes codec.Snack_Lin2Alaw (payload (is_wav_name inName) input),
      ?_, ?_, ?_, ?_⟩
    · rw [main_mode3 codec prog inName outName mode input hm, ho]; rfl
    · rw [encode_bytes_length, pcm16_samples_length]
    · rw [encode_bytes_length]; simp [hm]
    · simp [hm, WAVE_FORMAT_ALAW, BPS_8]
  · refine ⟨22050, 2 * (payload (is_wav_name inName) input).length % 2 ^ 32, WAVE_FORMAT_PCM,
      BPS_16, decode_bytes codec.Snack_Alaw2Lin (payload (is_wav_name inName) input),
      ?_, ?_, ?_, ?_⟩
    · rw [main_mode4 codec prog inName outName mode input hm, ho]; rfl
    · rw [decode_bytes_length]
    · rw [decode_bytes_length]; simp [hm]
    · simp [hm, WAVE_FORMAT_PCM, BPS_16]

/-- C4: for every mode in 1..4 and every input, when the output name ends in `.wav`/`.WAV`
and the output file stays below 2^32 bytes, `main` returns 0, the data-size field (offset 40)
equals the number of bytes after the 44-byte header (one per input sample for modes 1 and 3,
two per input byte for modes 2 and 4), and the file-size field (offset 4) equals the output
length minus 8, that is the data size plus 36. -/
theorem C4_header_sizes_match_written_bytes (codec : g711) (prog inName outName mode : String)
    (input : List Nat) (hout : ends_in_wav outName) (hmode : 1 ≤ atoi mode ∧ atoi mode ≤ 4)
    (hlt : (main_output codec [prog, inName, outName, mode] input).length < 2 ^ 32) :
    main codec [prog, inName, outName, mode] input =
      { status := 0, output := some (main_output codec [prog, inName, outName, mode] input) } ∧
    44 ≤ (main_output codec [prog, inName, outName, mode] input).length ∧
    (main_output codec [prog, inName, outName, mode] input).length - 44 =
      (if atoi mode = 1 ∨ atoi mode = 3
        then (pcm16_samples (payload (is_wav_name inName) input)).length
        else 2 * (payload (is_wav_name inName) input).length) ∧
    field32 (main_output codec [prog, inName, outName, mode] input) 40 =
      (main_output codec [prog, inName, outName, mode] input).length - 44 ∧
    field32 (main_output codec [prog, inName, outName, mode] input) 4 =
      (main_output codec [prog, inName, outName, mode] input).length - 8 ∧
    field32 (main_output codec [prog, inName, outName, mode] input) 4 =
      field32 (main_output codec [prog, inName, outName, mode] input) 40 + 36 := by
  obtain ⟨sr, bc, ft, bps, data, hmain, hbc, hdata, _⟩ :=
    main_wav_output codec prog inName outName mode input hout hmode
  have ho := main_output_eq _ _ _ _ _ hmain
  rw [ho] at hlt ⊢
  obtain ⟨g0, g1, _, _, _, g5⟩ := generated_fields wave_file_header_zero sr bc ft bps data
  rw [g0] at hlt
  rw [g1, g5, g0, ← hdata]
  refine ⟨hmain, ?_, ?_, ?_, ?_, ?_⟩ <;> omega

set_option maxRecDepth 100000 in
/-- C4 at a headerless mu-law file of three bytes decoded (mode 2) into a wave file. -/
theorem C4_header_sizes_match_written_bytes_witness :
    ends_in_wav "out.wav" ∧ (1 ≤ atoi "2" ∧ atoi "2" ≤ 4) ∧
    (main_output snack_g711 ["convert", "in.ulaw", "out.wav", "2"] [255, 0, 128]).length
      < 2 ^ 32 ∧
    main snack_g711 ["convert", "in.ulaw", "out.wav", "2"] [255, 0, 128] =
      { status := 0
        output := some (main_output snack_g711 ["convert", "in.ulaw", "out.wav", "2"]
          [255, 0, 128]) } ∧
    44 ≤ (main_output snack_g711 ["convert", "in.ulaw", "out.wav", "2"] [255, 0, 128]).length ∧
    (main_output snack_g711 ["convert", "in.ulaw", "out.wav", "2"] [255, 0, 128]).length - 44 =
      (if atoi "2" = 1 ∨ atoi "2" = 3
        then (pcm16_samples (payload (is_wav_name "in.ulaw") [255, 0, 128])).length
        else 2 * (payload (is_wav_name "in.ulaw") [255, 0, 128]).length) ∧
    field32 (main_output snack_g711 ["convert", "in.ulaw", "out.wav", "2"] [255, 0, 128]) 40 =
      (main_output snack_g711 ["convert", "in.ulaw", "out.wav", "2"] [255, 0, 128]).length
        - 44 ∧
    field32 (main_output snack_g711 ["convert", "in.ulaw", "out.wav", "2"] [255, 0, 128]) 4 =
      (main_output snack_g711 ["convert", "in.ulaw", "out.wav", "2"] [255, 0, 128]).length
        - 8 ∧
    field32 (main_output snack_g711 ["convert", "in.ulaw", "out.wav", "2"] [255, 0, 128]) 4 =
      field32 (main_output snack_g711 ["convert", "in.ulaw", "out.wav", "2"] [255, 0, 128]) 40
        + 36 :=
  ⟨by decide, by decide, by decide,
    C4_header_sizes_match_written_bytes snack_g711 "convert" "in.ulaw" "out.wav" "2"
      [255, 0, 128] (by decide) (by decide) (by decide)⟩

/-- C9: for every input, when the output name ends in `.wav`/`.WAV` the written header
matches the operation: mode 2 gives format code 1, 16 bits per sample, sample rate 8000;
mode 3 gives format code 6, 8 bits, 22050; mode 4 gives format code 1, 16 bits, 22050. -/
theorem C9_header_format_matches_mode (codec : g711) (prog inName outName mode : String)
    (input : List Nat) (hout : ends_in_wav outName)
    (hmode : atoi mode = 2 ∨ atoi mode = 3 ∨ atoi mode = 4) :
    ∃ out, main codec [prog, inName, outName, mode] input = { status := 0, output := some out } ∧
      44 ≤ out.length ∧
      (field16 out 20, field16 out 34, field32 out 24) =
        (if atoi mode = 2 then (1, 16, 8000) else if atoi mode = 3 then (6, 8, 22050)
          else (1, 16, 22050)) := by
  obtain ⟨sr, bc, ft, bps, data, hmain, _, _, hfmt⟩ :=
    main_wav_output codec prog inName outName mode input hout (by omega)
  obtain ⟨g0, _, g2, g3, g4, _⟩ := generated_fields wave_file_header_zero sr bc ft bps data
  refine ⟨_, hmain, by rw [g0]; omega, ?_⟩
  rw [g2, g3, g4]
  rcases hmode with hm | hm | hm <;>
    simp only [hm, Int.reduceEq, if_true, if_false, Prod.mk.injEq] at hfmt ⊢ <;>
    obtain ⟨e1, e2, e3⟩ := hfmt <;> subst e1 e2 e3 <;> decide

/-- C9 at an A-law encode (mode 3) of two samples into a wave file. -/
theorem C9_header_format_matches_mode_witness :
    ends_in_wav "out.WAV" ∧ (atoi "3" = 2 ∨ atoi "3" = 3 ∨ atoi "3" = 4) ∧
    ∃ out, main snack_g711 ["convert", "in.pcm", "out.WAV", "3"] [8, 0, 0, 128]
        = { status := 0, output := some out } ∧
      44 ≤ out.length ∧
      (field16 out 20, field16 out 34, field32 out 24) =
        (if atoi "3" = 2 then (1, 16, 8000) else if atoi "3" = 3 then (6, 8, 22050)
          else (1, 16, 22050)) :=
  ⟨by decide, by decide,
    C9_header_format_matches_mode snack_g711 "convert" "in.pcm" "out.WAV" "3" [8, 0, 0, 128]
      (by decide) (by decide)⟩

/-- C7 as stated fails: with mode argument `"7"` the driver runs no case and returns the
success status 0. -/
theorem C7_counterexample_unsupported_mode_returns_zero :
    atoi "7" = 7 ∧
    (main snack_g711 ["convert", "in.pcm", "out.pcm", "7"] [1, 2, 3, 4]).status = 0 := by
  refine ⟨by decide, ?_⟩
  rw [main_other_mode snack_g711 "convert" "in.pcm" "out.pcm" "7" [1, 2, 3, 4] (by decide)]

/-- C7 (amended): for every invocation of `main` with four arguments in which both files
open and whose mode selector (the `int` that `atoi` returns for the third argument) is not
one of 1..4, the driver reports no error: it returns the success status 0 and leaves the
output file empty. -/
theorem C7_unsupported_mode_is_silent (codec : g711) (prog inName outName mode : String)
    (input : List Nat) (hmode : ¬ (1 ≤ atoi mode ∧ atoi mode ≤ 4)) :
    main codec [prog, inName, outName, mode] input = { status := 0, output := some [] } :=
  main_other_mode codec prog inName outName mode input hmode

/-- C7 (amended) at the mode argument `"0"`. -/
theorem C7_unsupported_mode_is_silent_witness :
    ¬ (1 ≤ atoi "0" ∧ atoi "0" ≤ 4) ∧
    main snack_g711 ["convert", "in.wav", "out.wav", "0"] [1, 2, 3]
      = { status := 0, output := some [] } :=
  ⟨by decide, C7_unsupported_mode_is_silent snack_g711 "convert" "in.wav" "out.wav" "0"
    [1, 2, 3] (by decide)⟩

/-! ## The driver on headerless files -/

theorem encode_bytes_pcm16 (lin2 : Int → Nat) (hl : ∀ x, lin2 x < 256) (xs : List Int)
    (hxs : ∀ x ∈ xs, -32768 ≤ x ∧ x < 32768) :
    encode_bytes lin2 (pcm16_bytes xs) = xs.map lin2 := by
  rw [encode_bytes, pcm16_samples_bytes xs hxs]
  exact List.map_congr_left fun x _ => Nat.mod_eq_of_lt (hl x)

theorem mode1_headerless (codec : g711) (prog a b : String) (input : List Nat)
    (ha : ¬ ends_in_wav a) (hb : ¬ ends_in_wav b) :
    main codec [prog, a, b, "1"] input =
      { status := 0, output := some (encode_bytes codec.Snack_Lin2Mulaw input) } := by
  rw [main_mode1 codec prog a b "1" input atoi_one, is_wav_name_false a ha,
    is_wav_name_false b hb]
  rfl

theorem mode2_headerless (codec : g711) (prog a b : String) (input : List Nat)
    (ha : ¬ ends_in_wav a) (hb : ¬ ends_in_wav b) :
    main codec [prog, a, b, "2"] input =
      { status := 0, output := some (decode_bytes codec.Snack_Mulaw2Lin input) } := by
  rw [main_mode2 codec prog a b "2" input atoi_two, is_wav_name_false a ha,
    is_wav_name_false b hb]
  rfl

/-- C8: with headerless (non-`.wav`) input and output and any implementation of the codec
interface: on a file of N 16-bit samples mode 1 writes exactly the N bytes
`Snack_Lin2Mulaw (sample i)`; on a file of N bytes mode 2 writes exactly the N 16-bit samples
`Snack_Mulaw2Lin (byte i)`; hence mode 1 followed by mode 2 turns a file of N samples `x_i`
into the file of the N samples `Snack_Mulaw2Lin (Snack_Lin2Mulaw x_i)`. -/
theorem C8_headerless_mulaw_pipeline (codec : g711) (prog a b c : String)
    (xs : List Int) (ys : List Nat)
    (ha : ¬ ends_in_wav a) (hb : ¬ ends_in_wav b) (hc : ¬ ends_in_wav c)
    (hxs : ∀ x ∈ xs, -32768 ≤ x ∧ x < 32768) :
    main codec [prog, a, b, "1"] (pcm16_bytes xs) =
      { status := 0, output := some (xs.map codec.Snack_Lin2Mulaw) } ∧
    main codec [prog, a, b, "2"] ys =
      { status := 0, output := some (pcm16_bytes (ys.map codec.Snack_Mulaw2Lin)) } ∧
    main codec [prog, b, c, "2"] (main_output codec [prog, a, b, "1"] (pcm16_bytes xs)) =
      { status := 0
        output := some (pcm16_bytes
          (xs.map fun x => codec.Snack_Mulaw2Lin (codec.Snack_Lin2Mulaw x))) } ∧
    pcm16_samples
        (main_output codec [prog, b, c, "2"]
          (main_output codec [prog, a, b, "1"] (pcm16_bytes xs)))
      = xs.map (fun x => codec.Snack_Mulaw2Lin (codec.Snack_Lin2Mulaw x)) ∧
    (xs.map fun x => codec.Snack_Mulaw2Lin (codec.Snack_Lin2Mulaw x)).length = xs.length := by
  have h1 : main codec [prog, a, b, "1"] (pcm16_bytes xs) =
      { status := 0, output := some (xs.map codec.Snack_Lin2Mulaw) } := by
    rw [mode1_headerless codec prog a b _ ha hb,
      encode_bytes_pcm16 _ codec.Lin2Mulaw_uchar xs hxs]
  have h3 : main codec [prog, b, c, "2"] (main_output codec [prog, a, b, "1"] (pcm16_bytes xs))
      = { status := 0
          output := some (pcm16_bytes
            (xs.map fun x => codec.Snack_Mulaw2Lin (codec.Snack_Lin2Mulaw x))) } := by
    rw [main_output_eq _ _ _ _ _ h1, mode2_headerless codec prog b c _ hb hc, decode_bytes,
      List.map_map]
    rfl
  refine ⟨h1, mode2_headerless codec prog a b ys ha hb, h3, ?_, List.length_map _ _⟩
  rw [main_output_eq _ _ _ _ _ h3]
  apply pcm16_samples_bytes
  intro v hv
  obtain ⟨x, _, rfl⟩ := List.mem_map.1 hv
  exact codec.Mulaw2Lin_short _

set_option maxRecDepth 100000 in
/-- C8 at three samples (and two mu-law bytes), with the codec model for the interface. -/
theorem C8_headerless_mulaw_pipeline_witness :
    (¬ ends_in_wav "in.pcm" ∧ ¬ ends_in_wav "mid.ulaw" ∧ ¬ ends_in_wav "out.pcm" ∧
      ∀ x ∈ [0, 32635, -8], -32768 ≤ x ∧ x < (32768 : Int)) ∧
    main snack_g711 ["convert", "in.pcm", "mid.ulaw", "1"] (pcm16_bytes [0, 32635, -8]) =
      { status := 0, output := some ([0, 32635, -8].map snack_g711.Snack_Lin2Mulaw) } ∧
    main snack_g711 ["convert", "in.pcm", "mid.ulaw", "2"] [255, 128] =
      { status := 0, output := some (pcm16_bytes ([255, 128].map snack_g711.Snack_Mulaw2Lin)) } ∧
    main snack_g711 ["convert", "mid.ulaw", "out.pcm", "2"]
        (main_output snack_g711 ["convert", "in.pcm", "mid.ulaw", "1"]
          (pcm16_bytes [0, 32635, -8])) =
      { status := 0
        output := some (pcm16_bytes ([0, 32635, -8].map fun x =>
          snack_g711.Snack_Mulaw2Lin (snack_g711.Snack_Lin2Mulaw x))) } ∧
    pcm16_samples
        (main_output snack_g711 ["convert", "mid.ulaw", "out.pcm", "2"]
          (main_output snack_g711 ["convert", "in.pcm", "mid.ulaw", "1"]
            (pcm16_bytes [0, 32635, -8])))
      = [0, 32635, -8].map
          (fun x => snack_g711.Snack_Mulaw2Lin (snack_g711.Snack_Lin2Mulaw x)) ∧
    ([0, 32635, -8].map fun x =>
      snack_g711.Snack_Mulaw2Lin (snack_g711.Snack_Lin2Mulaw x)).length
        = [0, 32635, -8].length :=
  ⟨⟨by decide, by decide, by decide, by decide⟩,
    C8_headerless_mulaw_pipeline snack_g711 "convert" "in.pcm" "mid.ulaw" "out.pcm"
      [0, 32635, -8] [255, 128] (by decide) (by decide) (by decide) (by decide)⟩

end Convert
